import Mathlib

/-!
Verification of the rate-limit-aware retrying request orchestrator of the
mimecast-sdk repository (`src/mimecast_sdk/rate_limiting.py`), as a shallow
embedding in Lean 4.

Modelling choices:
* Python `float` values (backoff times, wait times, timestamps) are modelled
  as `ℚ`.
* Python strings (URLs, header names, header values) are `List Char`.
* `requests.Response` becomes `HttpResponse`: a status code and an
  association list of headers (the claims never exercise the
  case-insensitivity of `requests`' header dictionary, so lookup is exact).
* The Python dict `self._rate_limits` becomes an association list from
  endpoint keys to `QuotaSnapshot`.
* A transport (`session.request`) is a function from the index of the call
  (0 = first transport call of `handle_request`) to either a response or a
  raised `requests.exceptions.RequestException`; exceptions are identified
  by an opaque `Nat` tag so that re-raising "the original error" is
  observable.
* `random.random()` draws for jitter are supplied as an oracle
  `jitterFactors : Nat → ℚ` indexed by the transport-call index, and
  `datetime.now()` as a clock `clock : Nat → ℚ` read once per loop
  iteration (the real code reads the clock separately inside
  `_should_retry` and `_update_rate_limits`; no claim depends on the
  sub-iteration drift).
* The `while retry_count <= max_retries` loop is executed by structural
  recursion on a fuel argument chosen as `(max_retries - retry_count + 1).toNat`;
  the loop guard itself is still tested explicitly on every iteration, and a
  dedicated `outOfFuel` outcome marks the (provably unreachable) fuel-zero
  case so that fuel adequacy is a theorem, not an assumption.
-/

namespace MimecastSDK

/-! ## Generic association-list dictionary (Python `dict`) -/

def dictGet {α β : Type} [DecidableEq α] : List (α × β) → α → Option β
  | [], _ => none
  | (k, v) :: rest, key => if k = key then some v else dictGet rest key

def dictInsert {α β : Type} [DecidableEq α] : List (α × β) → α → β → List (α × β)
  | [], k, v => [(k, v)]
  | (k', v') :: rest, k, v =>
      if k' = k then (k, v) :: rest else (k', v') :: dictInsert rest k v

/-! ## String helpers (Python `str.split`, `str.rstrip`, `'/'.join`, `int`) -/

/-- Python `s.split(c)` for a single-character separator. -/
def splitOnChar (c : Char) : List Char → List (List Char)
  | [] => [[]]
  | x :: xs =>
    if x = c then [] :: splitOnChar c xs
    else (x :: (splitOnChar c xs).headD []) :: (splitOnChar c xs).tail

/-- Python `s.rstrip(c)`: removes every trailing occurrence of `c`. -/
def rstripChar (c : Char) (l : List Char) : List Char :=
  ((l.reverse).dropWhile (fun x => x = c)).reverse

/-- Python `lst[-n:]` (for `n > 0`). -/
def takeLast {α : Type} (n : Nat) (l : List α) : List α :=
  l.drop (l.length - n)

def digitsToNat (l : List Char) : Nat :=
  l.foldl (fun acc c => acc * 10 + (c.toNat - ('0').toNat)) 0

def parseDigits (s : List Char) : Option Nat :=
  if s ≠ [] ∧ s.all Char.isDigit then some (digitsToNat s) else none

def stripSpaces (s : List Char) : List Char :=
  (((s.dropWhile (fun x => x = ' ')).reverse).dropWhile (fun x => x = ' ')).reverse

/-- Python `int(s)` on a string: optional surrounding whitespace, optional
sign, decimal digits; `none` models the `ValueError` raised otherwise. -/
def parseInt (s : List Char) : Option Int :=
  match stripSpaces s with
  | '-' :: rest => (parseDigits rest).map (fun n => -(n : Int))
  | '+' :: rest => (parseDigits rest).map (fun n => (n : Int))
  | t => (parseDigits t).map (fun n => (n : Int))

/-! ## Data model -/

/-- One entry of `RateLimitHandler._rate_limits`: the dict built in
`_update_rate_limits` with keys `limit`, `remaining`, `reset`,
`last_updated`. -/
structure QuotaSnapshot where
  limit : Int
  remaining : Int
  reset : ℚ
  lastUpdated : ℚ
deriving DecidableEq, Repr

/-- `RateLimitHandler._rate_limits : Dict[str, Dict[str, Any]]`. -/
abbrev RateLimitState := List (List Char × QuotaSnapshot)

/-- A `requests.Response`: status code plus headers. -/
structure HttpResponse where
  status : Nat
  headers : List (List Char × List Char)
deriving DecidableEq, Repr

/-- `response.headers.get(name)`. -/
def headersGet (h : List (List Char × List Char)) (name : List Char) :
    Option (List Char) :=
  dictGet h name

/-- Constructor arguments of `RateLimitHandler.__init__` (stored verbatim;
the constructor performs no validation). -/
structure Config where
  maxRetries : Int
  minBackoff : ℚ
  maxBackoff : ℚ
  jitter : Bool
deriving DecidableEq, Repr

/-- `RateLimitHandler.__init__(max_retries=3, min_backoff=1.0,
max_backoff=60.0, jitter=True)`: stores the four arguments unchecked. -/
def initHandler (maxRetries : Int := 3) (minBackoff : ℚ := 1)
    (maxBackoff : ℚ := 60) (jitter : Bool := true) : Config :=
  ⟨maxRetries, minBackoff, maxBackoff, jitter⟩

/-- Header-name constants of `RateLimitHandler`. -/
def LIMIT_HEADER : List Char := ("x-mc-rate-limit").toList

def REMAINING_HEADER : List Char := ("x-mc-rate-limit-remaining").toList

def RESET_HEADER : List Char := ("x-mc-rate-limit-reset").toList

/-! ## `_get_endpoint_key` -/

/-- `RateLimitHandler._get_endpoint_key`:
`base_url = url.split('?')[0].rstrip('/')` then
`'/'.join(base_url.split('/')[-2:])`. -/
def getEndpointKey (url : List Char) : List Char :=
  let baseUrl := rstripChar '/' ((splitOnChar '?' url).headD [])
  List.intercalate ['/'] (takeLast 2 (splitOnChar '/' baseUrl))

/-! ## `_update_rate_limits` -/

/-- Python truthiness of an optional header value: `None` and the empty
string are falsy. -/
def truthyHeader : Option (List Char) → Bool
  | none => false
  | some s => !s.isEmpty

/-- `RateLimitHandler._update_rate_limits`: reads the three rate-limit
headers; if all are (truthily) present, tries to parse all three as
integers and replaces the endpoint's snapshot wholesale; any
`ValueError`/`TypeError` (modelled by a failing `parseInt`) leaves the
state untouched. The reset timestamp is `datetime.fromtimestamp(int(reset))`
and `last_updated` is `datetime.now()`, both modelled on the `ℚ` time
axis. -/
def updateRateLimits (st : RateLimitState) (endpoint : List Char)
    (resp : HttpResponse) (now : ℚ) : RateLimitState :=
  let limit := headersGet resp.headers LIMIT_HEADER
  let remaining := headersGet resp.headers REMAINING_HEADER
  let reset := headersGet resp.headers RESET_HEADER
  if truthyHeader limit && truthyHeader remaining && truthyHeader reset then
    match limit.bind parseInt, remaining.bind parseInt, reset.bind parseInt with
    | some l, some r, some t => dictInsert st endpoint ⟨l, r, (t : ℚ), now⟩
    | _, _, _ => st
  else st

/-! ## `_calculate_backoff` -/

/-- Python's builtin `min(a, b)`: `a` if `a <= b` else `b`. Definitionally
the same function as Mathlib's `min` on `ℚ` (see `pymin_eq_min`), but
written with an explicit `if` so that it evaluates inside the kernel. -/
def pymin (a b : ℚ) : ℚ := if a ≤ b then a else b

/-- `RateLimitHandler._calculate_backoff`: `min(max_backoff, min_backoff *
2 ** retry_count)`, multiplied by `0.5 + random.random()` when jitter is
enabled; the random draw is passed in as `jitterFactor` (so with jitter
enabled the caller supplies `0.5 + r` for the drawn `r`). The exponent is
an integer power (`zpow`), exactly as Python's `2 ** retry_count`. -/
def calculateBackoff (cfg : Config) (retryCount : Int) (jitterFactor : ℚ) : ℚ :=
  let backoff := pymin cfg.maxBackoff (cfg.minBackoff * (2 : ℚ) ^ retryCount)
  if cfg.jitter then backoff * jitterFactor else backoff

/-! ## `_should_retry` -/

/-- `RateLimitHandler._should_retry`: the pre-check decision
`(should_retry, wait_time_seconds)` for an endpoint at time `now`. -/
def shouldRetry (st : RateLimitState) (endpoint : List Char) (now : ℚ) :
    Bool × ℚ :=
  match dictGet st endpoint with
  | none => (true, 0)
  | some rateInfo =>
    if rateInfo.remaining > 0 then (true, 0)
    else if rateInfo.reset > now then (true, (rateInfo.reset - now) + 1)
    else (true, 0)

/-! ## `handle_request` -/

/-- One outcome of `session.request(method, url, **kwargs)`: a response, or
a raised `requests.exceptions.RequestException` (identified by a tag). -/
inductive TransportResult : Type
  | resp (r : HttpResponse)
  | exc (e : Nat)
deriving DecidableEq, Repr

/-- Whether a transport outcome is a failure from `handle_request`'s point
of view: a 429 response or a raised `RequestException`. -/
def TransportResult.isFailure : TransportResult → Prop
  | .resp r => r.status = 429
  | .exc _ => True

instance : DecidablePred TransportResult.isFailure := fun t =>
  match t with
  | .resp r => inferInstanceAs (Decidable (r.status = 429))
  | .exc _ => inferInstanceAs (Decidable True)

/-- How one call to `handle_request` terminates.

* `success r` — `return response`.
* `rateLimitExceeded ep n` — the `raise RateLimitExceeded(...)` inside the
  429 branch of the loop (message carries the endpoint and `max_retries`).
* `transportError e` — the bare `raise` re-raising the caught
  `RequestException`.
* `rateLimitFinal ep n` — the `raise RateLimitExceeded(...)` after the
  `while` loop.
* `outOfFuel` — embedding artifact for exhausted recursion fuel; proved
  unreachable for the fuel used by `handleRequest`. -/
inductive RequestOutcome : Type
  | success (r : HttpResponse)
  | rateLimitExceeded (endpoint : List Char) (maxRetries : Int)
  | transportError (e : Nat)
  | rateLimitFinal (endpoint : List Char) (maxRetries : Int)
  | outOfFuel
deriving DecidableEq, Repr

/-- Observable trace of one call to `handle_request`: its outcome, the
number of transport calls performed, the `time.sleep` durations of the
pre-check path and of the backoff path (in chronological order), and the
final `_rate_limits` state. -/
structure RunResult where
  outcome : RequestOutcome
  calls : Nat
  precheckSleeps : List ℚ
  backoffSleeps : List ℚ
  finalState : RateLimitState
deriving DecidableEq, Repr

/-- The `while retry_count <= self.max_retries` loop of `handle_request`.

`fuel` bounds the recursion; `handleRequest` passes
`(max_retries + 1).toNat`, which `handleLoop_no_outOfFuel` proves
sufficient (each iteration that loops again has incremented `retry_count`
by one and re-checks the guard). `pres` and `backs` accumulate sleep
durations in reverse. -/
def handleLoop (cfg : Config) (transport : Nat → TransportResult)
    (jitterFactors : Nat → ℚ) (clock : Nat → ℚ) (endpoint : List Char) :
    Nat → Int → Nat → RateLimitState → List ℚ → List ℚ → RunResult
  | 0, retryCount, callIdx, st, pres, backs =>
    if retryCount ≤ cfg.maxRetries then
      ⟨.outOfFuel, callIdx, pres.reverse, backs.reverse, st⟩
    else
      ⟨.rateLimitFinal endpoint cfg.maxRetries, callIdx, pres.reverse,
        backs.reverse, st⟩
  | fuel + 1, retryCount, callIdx, st, pres, backs =>
    if retryCount ≤ cfg.maxRetries then
      -- should_retry, wait_time = self._should_retry(endpoint)
      let sr := shouldRetry st endpoint (clock callIdx)
      -- if should_retry and wait_time > 0: time.sleep(wait_time)
      let pres' := if sr.1 = true ∧ 0 < sr.2 then sr.2 :: pres else pres
      match transport callIdx with
      | .resp r =>
        -- self._update_rate_limits(endpoint, response)
        let st' := updateRateLimits st endpoint r (clock callIdx)
        if r.status = 429 then
          let rc := retryCount + 1
          if rc > cfg.maxRetries then
            ⟨.rateLimitExceeded endpoint cfg.maxRetries, callIdx + 1,
              pres'.reverse, backs.reverse, st'⟩
          else
            let backoff := calculateBackoff cfg rc (jitterFactors callIdx)
            handleLoop cfg transport jitterFactors clock endpoint fuel rc
              (callIdx + 1) st' pres' (backoff :: backs)
        else
          ⟨.success r, callIdx + 1, pres'.reverse, backs.reverse, st'⟩
      | .exc e =>
        let rc := retryCount + 1
        if rc > cfg.maxRetries then
          ⟨.transportError e, callIdx + 1, pres'.reverse, backs.reverse, st⟩
        else
          let backoff := calculateBackoff cfg rc (jitterFactors callIdx)
          handleLoop cfg transport jitterFactors clock endpoint fuel rc
            (callIdx + 1) st pres' (backoff :: backs)
    else
      ⟨.rateLimitFinal endpoint cfg.maxRetries, callIdx, pres.reverse,
        backs.reverse, st⟩

/-- `RateLimitHandler.handle_request(method, url, ...)`: derives the
endpoint key from the URL and runs the retry loop starting from
`retry_count = 0` with an empty tracker state. -/
def handleRequest (cfg : Config) (transport : Nat → TransportResult)
    (jitterFactors : Nat → ℚ) (clock : Nat → ℚ) (url : List Char) : RunResult :=
  handleLoop cfg transport jitterFactors clock (getEndpointKey url)
    (cfg.maxRetries + 1).toNat 0 0 [] [] []

/-! ## Lemmas about the string helpers -/

theorem pymin_eq_min (a b : ℚ) : pymin a b = min a b := by
  rw [pymin, min_def]

theorem splitOnChar_ne_nil (c : Char) (l : List Char) : splitOnChar c l ≠ [] := by
  induction l with
  | nil => simp [splitOnChar]
  | cons x xs ih =>
    simp only [splitOnChar]
    split <;> simp

theorem splitOnChar_append (c : Char) (xs ys : List Char) :
    splitOnChar c (xs ++ c :: ys) = splitOnChar c xs ++ splitOnChar c ys := by
  induction xs with
  | nil => simp [splitOnChar]
  | cons x xs ih =>
    by_cases hx : x = c
    · subst hx
      simp [splitOnChar, ih]
    · obtain ⟨w, ws, hw⟩ := List.exists_cons_of_ne_nil (splitOnChar_ne_nil c xs)
      simp [splitOnChar, hx, ih, hw]

theorem splitOnChar_of_not_mem (c : Char) (l : List Char) (h : c ∉ l) :
    splitOnChar c l = [l] := by
  induction l with
  | nil => simp [splitOnChar]
  | cons x xs ih =>
    simp only [List.mem_cons, not_or] at h
    have hx : ¬(x = c) := fun hh => h.1 hh.symm
    simp [splitOnChar, hx, ih h.2]

theorem rstripChar_concat (c x : Char) (xs : List Char) (hx : x ≠ c) :
    rstripChar c (xs ++ [x]) = xs ++ [x] := by
  simp [rstripChar, List.dropWhile_cons, hx]

theorem takeLast_two {α : Type} (a b : α) (xs : List α) :
    takeLast 2 (xs ++ [a, b]) = [a, b] := by
  have hlen : (xs ++ [a, b]).length - 2 = xs.length := by simp
  rw [takeLast, hlen, List.drop_left]

theorem intercalate_pair (c : Char) (a b : List Char) :
    List.intercalate [c] [a, b] = a ++ c :: b := by
  simp [List.intercalate, List.intersperse]

/-- Computation of `_get_endpoint_key` on a URL of the form
`p ++ "/" ++ a ++ "/" ++ b` whose final two path segments are `a` and `b`:
with no query string, no slash inside the final segments and a nonempty
last segment, the key is exactly `a ++ "/" ++ b`. -/
theorem getEndpointKey_concat (p a b : List Char) (hqp : '?' ∉ p)
    (hqa : '?' ∉ a) (hqb : '?' ∉ b) (hsa : '/' ∉ a) (hsb : '/' ∉ b)
    (hb : b ≠ []) :
    getEndpointKey (p ++ '/' :: (a ++ '/' :: b)) = a ++ '/' :: b := by
  obtain ⟨bs, x, hbx⟩ := (List.eq_nil_or_concat b).resolve_left hb
  have hxb : x ∈ b := by simp [hbx]
  have hxslash : x ≠ '/' := fun hh => hsb (hh ▸ hxb)
  have hqu : '?' ∉ p ++ '/' :: (a ++ '/' :: b) := by
    intro hmem
    rcases List.mem_append.mp hmem with hmem | hmem
    · exact hqp hmem
    · rcases List.mem_cons.mp hmem with hmem | hmem
      · exact absurd hmem (by decide)
      · rcases List.mem_append.mp hmem with hmem | hmem
        · exact hqa hmem
        · rcases List.mem_cons.mp hmem with hmem | hmem
          · exact absurd hmem (by decide)
          · exact hqb hmem
  have hsplit_q : splitOnChar '?' (p ++ '/' :: (a ++ '/' :: b))
      = [p ++ '/' :: (a ++ '/' :: b)] := splitOnChar_of_not_mem _ _ hqu
  have hshape : p ++ '/' :: (a ++ '/' :: b)
      = (p ++ '/' :: (a ++ '/' :: bs)) ++ [x] := by
    simp [hbx]
  have hrstrip : rstripChar '/' (p ++ '/' :: (a ++ '/' :: b))
      = p ++ '/' :: (a ++ '/' :: b) := by
    rw [hshape]
    exact rstripChar_concat _ _ _ hxslash
  have hsplit_s : splitOnChar '/' (p ++ '/' :: (a ++ '/' :: b))
      = splitOnChar '/' p ++ [a, b] := by
    rw [splitOnChar_append, splitOnChar_append,
      splitOnChar_of_not_mem _ _ hsa, splitOnChar_of_not_mem _ _ hsb]
    rfl
  rw [getEndpointKey, hsplit_q]
  simp only [List.headD_cons]
  rw [hrstrip, hsplit_s, takeLast_two, intercalate_pair]

/-! ## Lemmas about the retry loop -/

/-- If every transport call fails (429 response or raised exception), the
loop consumes its whole remaining budget — one transport call per unit of
fuel — and terminates with one of the two in-loop raises. This is the
combined-budget behaviour: `retry_count` is a single counter shared by both
failure kinds. -/
theorem handleLoop_allFailures (cfg : Config) (transport : Nat → TransportResult)
    (jf ck : Nat → ℚ) (ep : List Char)
    (hfail : ∀ n, (transport n).isFailure) :
    ∀ (fuel : Nat) (retryCount : Int) (callIdx : Nat) (st : RateLimitState)
      (pres backs : List ℚ),
      retryCount ≤ cfg.maxRetries →
      fuel = (cfg.maxRetries + 1 - retryCount).toNat →
      (handleLoop cfg transport jf ck ep fuel retryCount callIdx st pres
            backs).calls = callIdx + fuel ∧
        ((handleLoop cfg transport jf ck ep fuel retryCount callIdx st pres
              backs).outcome = .rateLimitExceeded ep cfg.maxRetries ∨
          ∃ e, (handleLoop cfg transport jf ck ep fuel retryCount callIdx st
              pres backs).outcome = .transportError e) := by
  intro fuel
  induction fuel with
  | zero =>
    intro rc ci st pres backs hrc hfuel
    exfalso
    omega
  | succ fuel ih =>
    intro rc ci st pres backs hrc hfuel
    cases htr : transport ci with
    | resp r =>
      have h429 : r.status = 429 := by
        have hf := hfail ci
        rw [htr] at hf
        exact hf
      by_cases hgt : cfg.maxRetries < rc + 1
      · have hfuel0 : fuel = 0 := by omega
        subst hfuel0
        refine ⟨?_, Or.inl ?_⟩ <;> simp [handleLoop, hrc, htr, h429, hgt]
      · have hle : rc + 1 ≤ cfg.maxRetries := by omega
        have hf2 : fuel = (cfg.maxRetries + 1 - (rc + 1)).toNat := by omega
        simp only [handleLoop, hrc, htr, h429, hgt, if_true, if_false,
          ite_true, ite_false, gt_iff_lt, if_pos, if_neg, not_false_iff]
        refine ⟨?_, (ih (rc + 1) (ci + 1) _ _ _ hle hf2).2⟩
        rw [(ih (rc + 1) (ci + 1) _ _ _ hle hf2).1]
        omega
    | exc e =>
      by_cases hgt : cfg.maxRetries < rc + 1
      · have hfuel0 : fuel = 0 := by omega
        subst hfuel0
        refine ⟨?_, Or.inr ⟨e, ?_⟩⟩ <;> simp [handleLoop, hrc, htr, hgt]
      · have hle : rc + 1 ≤ cfg.maxRetries := by omega
        have hf2 : fuel = (cfg.maxRetries + 1 - (rc + 1)).toNat := by omega
        simp only [handleLoop, hrc, htr, hgt, if_true, if_false, ite_true,
          ite_false, gt_iff_lt, not_false_iff]
        refine ⟨?_, (ih (rc + 1) (ci + 1) _ _ _ hle hf2).2⟩
        rw [(ih (rc + 1) (ci + 1) _ _ _ hle hf2).1]
        omega

/-- If every transport call raises the same `RequestException` `e`, the
loop consumes its whole remaining budget and re-raises exactly `e`. -/
theorem handleLoop_allExc (cfg : Config) (transport : Nat → TransportResult)
    (jf ck : Nat → ℚ) (ep : List Char) (e : Nat)
    (hexc : ∀ n, transport n = .exc e) :
    ∀ (fuel : Nat) (retryCount : Int) (callIdx : Nat) (st : RateLimitState)
      (pres backs : List ℚ),
      retryCount ≤ cfg.maxRetries →
      fuel = (cfg.maxRetries + 1 - retryCount).toNat →
      (handleLoop cfg transport jf ck ep fuel retryCount callIdx st pres
            backs).outcome = .transportError e ∧
        (handleLoop cfg transport jf ck ep fuel retryCount callIdx st pres
            backs).calls = callIdx + fuel := by
  intro fuel
  induction fuel with
  | zero =>
    intro rc ci st pres backs hrc hfuel
    exfalso
    omega
  | succ fuel ih =>
    intro rc ci st pres backs hrc hfuel
    by_cases hgt : cfg.maxRetries < rc + 1
    · have hfuel0 : fuel = 0 := by omega
      subst hfuel0
      refine ⟨?_, ?_⟩ <;> simp [handleLoop, hrc, hexc ci, hgt]
    · have hle : rc + 1 ≤ cfg.maxRetries := by omega
      have hf2 : fuel = (cfg.maxRetries + 1 - (rc + 1)).toNat := by omega
      simp only [handleLoop, hrc, hexc ci, hgt, if_true, if_false, ite_true,
        ite_false, gt_iff_lt, not_false_iff]
      refine ⟨(ih (rc + 1) (ci + 1) _ _ _ hle hf2).1, ?_⟩
      rw [(ih (rc + 1) (ci + 1) _ _ _ hle hf2).2]
      omega

/-- Fuel adequacy and final-raise unreachability: whenever the loop is
entered with `retry_count ≤ max_retries` and the fuel that `handleRequest`
supplies, it terminates with a returned response, an in-loop
`RateLimitExceeded`, or a re-raised transport exception — never via the
`raise` after the `while` loop and never by running out of fuel. -/
theorem handleLoop_outcomes (cfg : Config) (transport : Nat → TransportResult)
    (jf ck : Nat → ℚ) (ep : List Char) :
    ∀ (fuel : Nat) (retryCount : Int) (callIdx : Nat) (st : RateLimitState)
      (pres backs : List ℚ),
      retryCount ≤ cfg.maxRetries →
      fuel = (cfg.maxRetries + 1 - retryCount).toNat →
      (∃ r, (handleLoop cfg transport jf ck ep fuel retryCount callIdx st
          pres backs).outcome = .success r) ∨
        (handleLoop cfg transport jf ck ep fuel retryCount callIdx st pres
            backs).outcome = .rateLimitExceeded ep cfg.maxRetries ∨
        ∃ e, (handleLoop cfg transport jf ck ep fuel retryCount callIdx st
            pres backs).outcome = .transportError e := by
  intro fuel
  induction fuel with
  | zero =>
    intro rc ci st pres backs hrc hfuel
    exfalso
    omega
  | succ fuel ih =>
    intro rc ci st pres backs hrc hfuel
    cases htr : transport ci with
    | resp r =>
      by_cases h429 : r.status = 429
      · by_cases hgt : cfg.maxRetries < rc + 1
        · refine Or.inr (Or.inl ?_)
          simp [handleLoop, hrc, htr, h429, hgt]
        · have hle : rc + 1 ≤ cfg.maxRetries := by omega
          have hf2 : fuel = (cfg.maxRetries + 1 - (rc + 1)).toNat := by omega
          simp only [handleLoop, hrc, htr, h429, hgt, if_true, if_false,
            ite_true, ite_false, gt_iff_lt, not_false_iff]
          exact ih (rc + 1) (ci + 1) _ _ _ hle hf2
      · refine Or.inl ⟨r, ?_⟩
        simp [handleLoop, hrc, htr, h429]
    | exc e =>
      by_cases hgt : cfg.maxRetries < rc + 1
      · refine Or.inr (Or.inr ⟨e, ?_⟩)
        simp [handleLoop, hrc, htr, hgt]
      · have hle : rc + 1 ≤ cfg.maxRetries := by omega
        have hf2 : fuel = (cfg.maxRetries + 1 - (rc + 1)).toNat := by omega
        simp only [handleLoop, hrc, htr, hgt, if_true, if_false, ite_true,
          ite_false, gt_iff_lt, not_false_iff]
        exact ih (rc + 1) (ci + 1) _ _ _ hle hf2

/-! ## Claims -/

/-- C5: with `maxRetries = 2`, a transport that returns HTTP 429 on every
attempt causes `handle_request` to perform exactly 3 transport calls
(1 initial + 2 retries) and then raise `RateLimitExceeded`. -/
theorem c5_budget_exhaustion :
    (handleRequest ⟨2, 1, 60, false⟩ (fun _ => .resp ⟨429, []⟩) (fun _ => 1)
          (fun _ => 0) (("https://api.example.com/a/b/c").toList)).calls
        = 3 ∧
      (handleRequest ⟨2, 1, 60, false⟩ (fun _ => .resp ⟨429, []⟩)
          (fun _ => 1) (fun _ => 0)
          (("https://api.example.com/a/b/c").toList)).outcome
        = .rateLimitExceeded (("b/c").toList) 2 := by
  decide

/-- C6: for every tracker state and endpoint key, `_should_retry` returns
`(true, 0)` when no snapshot exists or `remaining > 0`; returns
`(true, (resetAt - now) + 1)` when `remaining = 0` and `resetAt` is
strictly in the future; and returns `(true, 0)` when `remaining = 0` and
`resetAt` has already passed. -/
theorem c6_decision :
    (∀ (st : RateLimitState) (ep : List Char) (now : ℚ),
        dictGet st ep = none → shouldRetry st ep now = (true, 0)) ∧
      (∀ (st : RateLimitState) (ep : List Char) (now : ℚ)
          (ri : QuotaSnapshot), dictGet st ep = some ri →
        0 < ri.remaining → shouldRetry st ep now = (true, 0)) ∧
      (∀ (st : RateLimitState) (ep : List Char) (now : ℚ)
          (ri : QuotaSnapshot), dictGet st ep = some ri → ri.remaining = 0 →
        now < ri.reset → shouldRetry st ep now = (true, ri.reset - now + 1)) ∧
      ∀ (st : RateLimitState) (ep : List Char) (now : ℚ)
          (ri : QuotaSnapshot), dictGet st ep = some ri → ri.remaining = 0 →
        ri.reset ≤ now → shouldRetry st ep now = (true, 0) := by
  refine ⟨?_, ?_, ?_, ?_⟩
  · intro st ep now h
    simp [shouldRetry, h]
  · intro st ep now ri h hrem
    simp [shouldRetry, h, hrem]
  · intro st ep now ri h hrem hreset
    simp [shouldRetry, h, hrem, hreset]
  · intro st ep now ri h hrem hreset
    have hnl : ¬(now < ri.reset) := not_lt.mpr hreset
    simp [shouldRetry, h, hrem, hnl]

/-- C6 witness: the four branches of the decision evaluated at concrete
tracker states. -/
theorem c6_decision_witness :
    shouldRetry [] (("b/c").toList) 5 = (true, 0) ∧
      shouldRetry [((("b/c").toList), ⟨100, 7, 60, 0⟩)] (("b/c").toList) 5
        = (true, 0) ∧
      shouldRetry [((("b/c").toList), ⟨100, 0, 60, 0⟩)] (("b/c").toList) 5
        = (true, 56) ∧
      shouldRetry [((("b/c").toList), ⟨100, 0, 60, 0⟩)] (("b/c").toList) 61
        = (true, 0) := by
  refine ⟨c6_decision.1 _ _ _ (by decide),
    c6_decision.2.1 _ _ _ ⟨100, 7, 60, 0⟩ (by decide) (by decide), ?_,
    c6_decision.2.2.2 _ _ _ ⟨100, 0, 60, 0⟩ (by decide) (by decide)
      (by decide)⟩
  have h := c6_decision.2.2.1 [((("b/c").toList), ⟨100, 0, 60, 0⟩)]
    (("b/c").toList) 5 ⟨100, 0, 60, 0⟩ (by decide) (by decide) (by decide)
  exact h.trans (by norm_num)

/-- C7: `_update_rate_limits` is total and atomic: if any of the three
rate-limit headers is absent or does not parse as an integer, the stored
state is left exactly as it was (no partial merge); in the model the
function is total, mirroring that the Python code catches the parse errors
and never raises to its caller. -/
theorem c7_update_total (st : RateLimitState) (ep : List Char)
    (resp : HttpResponse) (now : ℚ)
    (h : (headersGet resp.headers LIMIT_HEADER).bind parseInt = none ∨
      (headersGet resp.headers REMAINING_HEADER).bind parseInt = none ∨
      (headersGet resp.headers RESET_HEADER).bind parseInt = none) :
    updateRateLimits st ep resp now = st := by
  simp only [updateRateLimits]
  split
  · split
    · rcases h with h | h | h <;> simp_all
    · rfl
  · rfl

/-- C7 witness: a 200 response carrying only the limit and remaining
headers (reset absent) leaves the tracker state unchanged. -/
theorem c7_update_total_witness :
    updateRateLimits [((("b/c").toList), ⟨1, 2, 3, 4⟩)] (("b/c").toList)
        ⟨200, [(LIMIT_HEADER, ("100").toList),
          (REMAINING_HEADER, ("99").toList)]⟩ 0
      = [((("b/c").toList), ⟨1, 2, 3, 4⟩)] :=
  c7_update_total _ _ _ _ (Or.inr (Or.inr (by decide)))

/-- C8: with jitter disabled, `_calculate_backoff` is deterministic (the
random draw is ignored), equals `min(maxBackoff, minBackoff * 2^n)`
exactly, and for non-negative `minBackoff` and `maxBackoff` is monotone
non-decreasing in the attempt number. -/
theorem c8_backoff (cfg : Config) (n : Nat) (jf jf2 : ℚ)
    (hj : cfg.jitter = false) (hmin : 0 ≤ cfg.minBackoff)
    (hmax : 0 ≤ cfg.maxBackoff) :
    calculateBackoff cfg (n : Int) jf
        = min cfg.maxBackoff (cfg.minBackoff * 2 ^ n) ∧
      calculateBackoff cfg (n : Int) jf = calculateBackoff cfg (n : Int) jf2 ∧
      calculateBackoff cfg (n : Int) jf
        ≤ calculateBackoff cfg ((n : Int) + 1) jf := by
  have hz : (2 : ℚ) ^ (n : Int) = 2 ^ n := zpow_natCast 2 n
  have hz1 : (2 : ℚ) ^ ((n : Int) + 1) = 2 ^ (n + 1) := by
    rw [show ((n : Int) + 1) = ((n + 1 : Nat) : Int) by push_cast; ring]
    exact zpow_natCast 2 (n + 1)
  refine ⟨by simp [calculateBackoff, hj, hz, pymin_eq_min],
    by simp [calculateBackoff, hj], ?_⟩
  simp only [calculateBackoff, hj, Bool.false_eq_true, if_false, hz, hz1,
    pymin_eq_min]
  refine min_le_min (le_refl _) (mul_le_mul_of_nonneg_left ?_ hmin)
  exact pow_le_pow_right₀ (by norm_num) (Nat.le_succ n)

/-- C8 witness: the backoff at attempts 2 and 3 for
`minBackoff = 1, maxBackoff = 60, jitter = false`. -/
theorem c8_backoff_witness :
    calculateBackoff ⟨3, 1, 60, false⟩ ((2 : Nat) : Int) 1
        = min (60 : ℚ) (1 * 2 ^ (2 : Nat)) ∧
      calculateBackoff ⟨3, 1, 60, false⟩ ((2 : Nat) : Int) 1
        = calculateBackoff ⟨3, 1, 60, false⟩ ((2 : Nat) : Int) 5 ∧
      calculateBackoff ⟨3, 1, 60, false⟩ ((2 : Nat) : Int) 1
        ≤ calculateBackoff ⟨3, 1, 60, false⟩ (((2 : Nat) : Int) + 1) 1 :=
  c8_backoff ⟨3, 1, 60, false⟩ 2 1 5 rfl (by norm_num) (by norm_num)

/-- C9: the endpoint key keeps only the last two path segments (after
stripping the query string and any trailing slash), so two URLs that
differ only in earlier path segments but share the same final two segments
get equal keys and therefore share one tracked quota bucket. -/
theorem c9_endpoint_key (p1 p2 a b : List Char) (hqp1 : '?' ∉ p1)
    (hqp2 : '?' ∉ p2) (hqa : '?' ∉ a) (hqb : '?' ∉ b) (hsa : '/' ∉ a)
    (hsb : '/' ∉ b) (hb : b ≠ []) :
    getEndpointKey (p1 ++ '/' :: (a ++ '/' :: b))
        = getEndpointKey (p2 ++ '/' :: (a ++ '/' :: b)) ∧
      getEndpointKey (p1 ++ '/' :: (a ++ '/' :: b)) = a ++ '/' :: b := by
  have h1 := getEndpointKey_concat p1 a b hqp1 hqa hqb hsa hsb hb
  have h2 := getEndpointKey_concat p2 a b hqp2 hqa hqb hsa hsb hb
  exact ⟨h1.trans h2.symm, h1⟩

/-- C9 witness: two URLs rooted differently but both ending in
`messages/search` map to the same endpoint key. -/
theorem c9_endpoint_key_witness :
    getEndpointKey ((("https://api.x.com/v1").toList) ++ '/' ::
          ((("messages").toList) ++ '/' :: (("search").toList)))
        = getEndpointKey ((("https://api.x.com/v2/other").toList) ++ '/' ::
          ((("messages").toList) ++ '/' :: (("search").toList))) ∧
      getEndpointKey ((("https://api.x.com/v1").toList) ++ '/' ::
          ((("messages").toList) ++ '/' :: (("search").toList)))
        = (("messages").toList) ++ '/' :: (("search").toList) :=
  c9_endpoint_key _ _ _ _ (by decide) (by decide) (by decide) (by decide)
    (by decide) (by decide) (by decide)

/-- C10: for `max_retries ≥ 0` the `raise` after `handle_request`'s while
loop is unreachable — every termination is a returned response, an in-loop
`RateLimitExceeded`, or a re-raised transport exception; for
`max_retries < 0` the loop body never runs and `handle_request` raises via
that final statement without any transport call. -/
theorem c10_final_raise :
    (∀ (cfg : Config) (transport : Nat → TransportResult) (jf ck : Nat → ℚ)
        (url : List Char), 0 ≤ cfg.maxRetries →
      (∃ r, (handleRequest cfg transport jf ck url).outcome = .success r) ∨
        (handleRequest cfg transport jf ck url).outcome
          = .rateLimitExceeded (getEndpointKey url) cfg.maxRetries ∨
        ∃ e, (handleRequest cfg transport jf ck url).outcome
          = .transportError e) ∧
      ∀ (cfg : Config) (transport : Nat → TransportResult) (jf ck : Nat → ℚ)
        (url : List Char), cfg.maxRetries < 0 →
        handleRequest cfg transport jf ck url
          = ⟨.rateLimitFinal (getEndpointKey url) cfg.maxRetries, 0, [], [],
              []⟩ := by
  constructor
  · intro cfg transport jf ck url hm
    exact handleLoop_outcomes cfg transport jf ck (getEndpointKey url)
      (cfg.maxRetries + 1).toNat 0 0 [] [] [] hm (by omega)
  · intro cfg transport jf ck url hm
    have hfuel : (cfg.maxRetries + 1).toNat = 0 := by omega
    have hng : ¬((0 : Int) ≤ cfg.maxRetries) := by omega
    rw [handleRequest, hfuel]
    simp [handleLoop, hng]

/-- C10 witness: a non-negative budget terminates through one of the three
in-loop exits; a negative budget raises the post-loop `RateLimitExceeded`
with zero transport calls. -/
theorem c10_final_raise_witness :
    ((∃ r, (handleRequest ⟨0, 1, 60, false⟩ (fun _ => .resp ⟨200, []⟩)
          (fun _ => 1) (fun _ => 0) (("a/b/c").toList)).outcome
            = .success r) ∨
        (handleRequest ⟨0, 1, 60, false⟩ (fun _ => .resp ⟨200, []⟩)
            (fun _ => 1) (fun _ => 0) (("a/b/c").toList)).outcome
          = .rateLimitExceeded (getEndpointKey (("a/b/c").toList)) 0 ∨
        ∃ e, (handleRequest ⟨0, 1, 60, false⟩ (fun _ => .resp ⟨200, []⟩)
            (fun _ => 1) (fun _ => 0) (("a/b/c").toList)).outcome
          = .transportError e) ∧
      handleRequest ⟨-2, 1, 60, true⟩ (fun _ => .exc 1) (fun _ => 1)
          (fun _ => 0) (("a/b/c").toList)
        = ⟨.rateLimitFinal (getEndpointKey (("a/b/c").toList)) (-2), 0, [],
            [], []⟩ :=
  ⟨c10_final_raise.1 ⟨0, 1, 60, false⟩ _ _ _ _ (by decide),
    c10_final_raise.2 ⟨-2, 1, 60, true⟩ _ _ _ _ (by decide)⟩

/-- C1 counterexample: with `maxRetries = 1` the budget is NOT independent
per failure kind: after one throttling (429) retry, the first transient
failure (transport exception, zero transient retries consumed so far)
already exhausts the shared counter and is re-raised after only 2
transport calls — the 200 the transport would return on call 3 is never
requested, although the claim grants a full `maxRetries` budget to
transient failures on top of the throttling budget. -/
theorem c1_counterexample :
    (handleRequest ⟨1, 1, 60, false⟩
          (fun n => if n = 0 then .resp ⟨429, []⟩
            else if n = 1 then .exc 7 else .resp ⟨200, []⟩)
          (fun _ => 1) (fun _ => 0)
          (("https://api.example.com/a/b/c").toList)).outcome
        = .transportError 7 ∧
      (handleRequest ⟨1, 1, 60, false⟩
          (fun n => if n = 0 then .resp ⟨429, []⟩
            else if n = 1 then .exc 7 else .resp ⟨200, []⟩)
          (fun _ => 1) (fun _ => 0)
          (("https://api.example.com/a/b/c").toList)).calls = 2 := by
  decide

/-- C1 (amended): `maxRetries` is a single combined budget shared by
throttling and transient-failure retries: for any transport whose every
outcome is a failure (429 or exception, in any mix), `handle_request`
makes exactly `maxRetries + 1` transport calls in total and then fails
with one of the two terminal errors. -/
theorem c1_combined_budget (cfg : Config) (transport : Nat → TransportResult)
    (jf ck : Nat → ℚ) (url : List Char) (hm : 0 ≤ cfg.maxRetries)
    (hfail : ∀ n, (transport n).isFailure) :
    (handleRequest cfg transport jf ck url).calls
        = cfg.maxRetries.toNat + 1 ∧
      ((handleRequest cfg transport jf ck url).outcome
          = .rateLimitExceeded (getEndpointKey url) cfg.maxRetries ∨
        ∃ e, (handleRequest cfg transport jf ck url).outcome
          = .transportError e) := by
  have h := handleLoop_allFailures cfg transport jf ck (getEndpointKey url)
    hfail (cfg.maxRetries + 1).toNat 0 0 [] [] [] hm (by omega)
  rw [handleRequest]
  refine ⟨?_, h.2⟩
  rw [h.1]
  omega

/-- C1 witness: `maxRetries = 2` with a transport that first raises an
exception and then returns 429 forever — three calls in total, then a
terminal failure. -/
theorem c1_combined_budget_witness :
    (handleRequest ⟨2, 1, 60, false⟩
          (fun n => if n = 0 then .exc 3 else .resp ⟨429, []⟩) (fun _ => 1)
          (fun _ => 0) (("https://api.example.com/a/b/c").toList)).calls
        = (2 : Int).toNat + 1 ∧
      ((handleRequest ⟨2, 1, 60, false⟩
            (fun n => if n = 0 then .exc 3 else .resp ⟨429, []⟩)
            (fun _ => 1) (fun _ => 0)
            (("https://api.example.com/a/b/c").toList)).outcome
          = .rateLimitExceeded
              (getEndpointKey (("https://api.example.com/a/b/c").toList)) 2 ∨
        ∃ e, (handleRequest ⟨2, 1, 60, false⟩
            (fun n => if n = 0 then .exc 3 else .resp ⟨429, []⟩)
            (fun _ => 1) (fun _ => 0)
            (("https://api.example.com/a/b/c").toList)).outcome
          = .transportError e) :=
  c1_combined_budget ⟨2, 1, 60, false⟩ _ _ _ _ (by decide)
    (fun n => by
      by_cases h : n = 0 <;> simp [h, TransportResult.isFailure])

/-- C2 counterexample: a 500 response is NOT given the 429
retry-with-backoff treatment: with `maxRetries = 3` and a transport that
always returns 500, `handle_request` returns that 500 response to the
caller after a single transport call and with no backoff sleep. -/
theorem c2_counterexample :
    (handleRequest ⟨3, 1, 60, false⟩ (fun _ => .resp ⟨500, []⟩) (fun _ => 1)
          (fun _ => 0) (("https://api.example.com/a/b/c").toList)).outcome
        = .success ⟨500, []⟩ ∧
      (handleRequest ⟨3, 1, 60, false⟩ (fun _ => .resp ⟨500, []⟩)
          (fun _ => 1) (fun _ => 0)
          (("https://api.example.com/a/b/c").toList)).calls = 1 ∧
      (handleRequest ⟨3, 1, 60, false⟩ (fun _ => .resp ⟨500, []⟩)
          (fun _ => 1) (fun _ => 0)
          (("https://api.example.com/a/b/c").toList)).backoffSleeps = [] := by
  decide

/-- C2 (amended): only raised transport exceptions receive the
THROTTLED-style retry handling; any response whose status differs from 429
— including 500 and every other non-2xx/3xx status — is returned to the
caller immediately on the first attempt. Exceptions are retried up to
`maxRetries` and then the original exception is re-raised. -/
theorem c2_non429_returned :
    (∀ (cfg : Config) (transport : Nat → TransportResult) (jf ck : Nat → ℚ)
        (url : List Char) (r : HttpResponse), 0 ≤ cfg.maxRetries →
        transport 0 = .resp r → r.status ≠ 429 →
        (handleRequest cfg transport jf ck url).outcome = .success r ∧
          (handleRequest cfg transport jf ck url).calls = 1) ∧
      ∀ (cfg : Config) (transport : Nat → TransportResult) (jf ck : Nat → ℚ)
        (url : List Char) (e : Nat), 0 ≤ cfg.maxRetries →
        (∀ n, transport n = .exc e) →
        (handleRequest cfg transport jf ck url).outcome = .transportError e ∧
          (handleRequest cfg transport jf ck url).calls
            = cfg.maxRetries.toNat + 1 := by
  constructor
  · intro cfg transport jf ck url r hm htr h429
    obtain ⟨f, hf⟩ : ∃ f, (cfg.maxRetries + 1).toNat = f + 1 :=
      ⟨cfg.maxRetries.toNat, by omega⟩
    rw [handleRequest, hf]
    constructor <;> simp [handleLoop, hm, htr, h429]
  · intro cfg transport jf ck url e hm hexc
    have h := handleLoop_allExc cfg transport jf ck (getEndpointKey url) e
      hexc (cfg.maxRetries + 1).toNat 0 0 [] [] [] hm (by omega)
    rw [handleRequest]
    refine ⟨h.1, ?_⟩
    rw [h.2]
    omega

/-- C2 witness: a 500 response comes straight back on call 1; a transport
that always raises exception 9 under `maxRetries = 2` ends with that
exception re-raised after 3 calls. -/
theorem c2_non429_returned_witness :
    ((handleRequest ⟨3, 1, 60, true⟩ (fun _ => .resp ⟨500, []⟩) (fun _ => 1)
          (fun _ => 0) (("a/b/c").toList)).outcome = .success ⟨500, []⟩ ∧
        (handleRequest ⟨3, 1, 60, true⟩ (fun _ => .resp ⟨500, []⟩)
          (fun _ => 1) (fun _ => 0) (("a/b/c").toList)).calls = 1) ∧
      (handleRequest ⟨2, 1, 60, false⟩ (fun _ => .exc 9) (fun _ => 1)
          (fun _ => 0) (("a/b/c").toList)).outcome = .transportError 9 ∧
        (handleRequest ⟨2, 1, 60, false⟩ (fun _ => .exc 9) (fun _ => 1)
          (fun _ => 0) (("a/b/c").toList)).calls = (2 : Int).toNat + 1 :=
  ⟨c2_non429_returned.1 ⟨3, 1, 60, true⟩ _ _ _ _ ⟨500, []⟩ (by decide) rfl
      (by decide),
    c2_non429_returned.2 ⟨2, 1, 60, false⟩ _ _ _ _ 9 (by decide)
      (fun n => rfl)⟩

/-- C3 (code bug): the repository's own test `test_retry_with_backoff`
asserts that with jitter disabled the first backoff sleep equals
`min_backoff` (attempt number 0) and the second `min_backoff * 2`, as the
claim states; the code instead passes the already-incremented
`retry_count` to `_calculate_backoff`, so a transport returning 429, 429,
200 under `minBackoff = 1.0` sleeps 2.0s then 4.0s, not 1.0s then 2.0s.
This theorem evaluates the embedded code at that failing input. -/
theorem c3_code_behavior :
    (handleRequest ⟨3, 1, 60, false⟩
          (fun n => if n < 2 then .resp ⟨429, []⟩ else .resp ⟨200, []⟩)
          (fun _ => 1) (fun _ => 0)
          (("https://api.example.com/a/b/c").toList)).outcome
        = .success ⟨200, []⟩ ∧
      (handleRequest ⟨3, 1, 60, false⟩
          (fun n => if n < 2 then .resp ⟨429, []⟩ else .resp ⟨200, []⟩)
          (fun _ => 1) (fun _ => 0)
          (("https://api.example.com/a/b/c").toList)).calls = 3 ∧
      (handleRequest ⟨3, 1, 60, false⟩
          (fun n => if n < 2 then .resp ⟨429, []⟩ else .resp ⟨200, []⟩)
          (fun _ => 1) (fun _ => 0)
          (("https://api.example.com/a/b/c").toList)).backoffSleeps
        = [2, 4] ∧
      ([2, 4] : List ℚ) ≠ [1, 2] := by
  have hrun : handleRequest ⟨3, 1, 60, false⟩
      (fun n => if n < 2 then .resp ⟨429, []⟩ else .resp ⟨200, []⟩)
      (fun _ => 1) (fun _ => 0) (("https://api.example.com/a/b/c").toList)
      = ⟨.success ⟨200, []⟩, 3, [], [2, 4], []⟩ := by
    norm_num [handleRequest, handleLoop, shouldRetry, updateRateLimits,
      headersGet, dictGet, truthyHeader, calculateBackoff, pymin,
      LIMIT_HEADER, REMAINING_HEADER, RESET_HEADER]
  refine ⟨by rw [hrun], by rw [hrun], by rw [hrun], by decide⟩

/-- C4 counterexample: constructing a handler with `maxRetries = -1`
succeeds and stores the negative value — `__init__` performs no
validation — and the misuse then surfaces at call time:
`handle_request` raises `RateLimitExceeded` (via the post-loop raise)
without making a transport call, contradicting "rejected eagerly at
construction, never deferred to the time handle_request is called". -/
theorem c4_counterexample :
    (initHandler (-1) 1 60 true).maxRetries = -1 ∧
      (handleRequest (initHandler (-1) 1 60 true) (fun _ => .resp ⟨200, []⟩)
          (fun _ => 1) (fun _ => 0) (("a/b/c").toList)).outcome
        = .rateLimitFinal (("b/c").toList) (-1) ∧
      (handleRequest (initHandler (-1) 1 60 true) (fun _ => .resp ⟨200, []⟩)
          (fun _ => 1) (fun _ => 0) (("a/b/c").toList)).calls = 0 := by
  decide

/-- C4 (amended): the constructor performs no validation: a negative
`maxRetries` is accepted and stored, and the failure is deferred to call
time — `handle_request` then makes no transport call, sleeps nowhere, and
raises `RateLimitExceeded` through the statement after the loop. -/
theorem c4_no_validation (maxRetries : Int) (minBackoff maxBackoff : ℚ)
    (jitter : Bool) (transport : Nat → TransportResult) (jf ck : Nat → ℚ)
    (url : List Char) (hm : maxRetries < 0) :
    handleRequest (initHandler maxRetries minBackoff maxBackoff jitter)
        transport jf ck url
      = ⟨.rateLimitFinal (getEndpointKey url) maxRetries, 0, [], [], []⟩ := by
  have hfuel : (maxRetries + 1).toNat = 0 := by omega
  have hng : ¬((0 : Int) ≤ maxRetries) := by omega
  simp [handleRequest, initHandler, hfuel, handleLoop, hng]

/-- C4 witness: the amended behaviour at `maxRetries = -1`. -/
theorem c4_no_validation_witness :
    handleRequest (initHandler (-1) 1 60 true) (fun _ => .resp ⟨200, []⟩)
        (fun _ => 1) (fun _ => 0) (("a/b/c").toList)
      = ⟨.rateLimitFinal (getEndpointKey (("a/b/c").toList)) (-1), 0, [], [],
          []⟩ :=
  c4_no_validation (-1) 1 60 true _ _ _ _ (by decide)

end MimecastSDK
